import Mathlib

/-!
Verification of the patient assessment script (`assess_patients.py`).

The script fetches a paginated list of patient records, scores three
vital-sign fields per patient (blood pressure, temperature, age), and
aggregates patients into three sets (high-risk, fever, data-quality
issues).  We embed the pure core of the script shallowly:

* dynamically-typed field values become the inductive `PyVal`
  (absent/`None`, string, number); Python floats are modelled as `ℚ`;
* the builtin coercion `float(x)` becomes `pyFloat` (a decimal-literal
  parser for the string case, mirroring `float(str)` on the plain
  decimal strings the data model uses);
* `str.split("/")` and `str.strip()` become `splitOnSlash` and
  `pyStrip` over `List Char`;
* the `while True` retrieval loop becomes fuel-indexed recursion over
  an abstract server `Nat → Nat → Page` (page, limit ↦ response), with
  the issued requests logged; `print` side effects are dropped;
* Python `set`s become `Finset PyVal`.
-/

/-- A dynamically-typed value as the script receives it from JSON:
absent/`None`, a string, or a number (Python floats modelled as `ℚ`). -/
inductive PyVal where
  | none
  | str (s : String)
  | num (q : ℚ)
deriving DecidableEq

/-- Python truthiness for `PyVal` (`not x` in the script): `None`, the
empty string and the number 0 are falsy, everything else is truthy. -/
def pyTruthy : PyVal → Bool
  | PyVal.none => false
  | PyVal.str s => s ≠ ""
  | PyVal.num q => q ≠ 0

/-- Value of a digit string, most significant digit first
(`int("...")` on the digit runs inside a float literal). -/
def digitsToNat (l : List Char) : Nat :=
  l.foldl (fun n c => n * 10 + (c.toNat - 48)) 0

/-- Parse an unsigned decimal literal (digits, optionally with a single
decimal point; at least one digit overall), as accepted by Python's
`float(str)` after sign and whitespace handling.  Returns the mantissa
(all digits read as one integer) and the number of fractional digits,
so the literal's value is `mantissa / 10 ^ fracDigits`. -/
def parseDecimal (cs : List Char) : Option (Nat × Nat) :=
  let ip := cs.takeWhile Char.isDigit
  let rest := cs.dropWhile Char.isDigit
  match rest with
  | [] => if ip.isEmpty then Option.none else some (digitsToNat ip, 0)
  | '.' :: fp =>
      if fp.all Char.isDigit && !(ip.isEmpty && fp.isEmpty) then
        some (digitsToNat (ip ++ fp), fp.length)
      else Option.none
  | _ => Option.none

/-- `str.strip()`: drop leading and trailing whitespace. -/
def pyStrip (cs : List Char) : List Char :=
  ((cs.dropWhile Char.isWhitespace).reverse.dropWhile Char.isWhitespace).reverse

/-- Syntactic part of Python's `float` on a character list: strip
whitespace, optional sign, then a decimal literal.  `ValueError` (no
parse) becomes `none`; a parse yields (sign, mantissa, fracDigits). -/
def pyParseFloat (cs : List Char) : Option (Bool × Nat × Nat) :=
  match pyStrip cs with
  | '+' :: rest => Option.map (fun p => (false, p)) (parseDecimal rest)
  | '-' :: rest => Option.map (fun p => (true, p)) (parseDecimal rest)
  | stripped => Option.map (fun p => (false, p)) (parseDecimal stripped)

/-- The rational value of a parsed decimal literal. -/
def decimalToRat (sgn : Bool) (m e : Nat) : ℚ :=
  let mag : ℚ := if e = 0 then (m : ℚ) else (m : ℚ) / 10 ^ e
  if sgn then -mag else mag

/-- Python's `float` on a character list, as a rational number. -/
def pyFloatChars (cs : List Char) : Option ℚ :=
  Option.map (fun t => decimalToRat t.1 t.2.1 t.2.2) (pyParseFloat cs)

/-- Python's `float(s)` on a string. -/
def pyFloatOfString (s : String) : Option ℚ :=
  pyFloatChars s.data

/-- Python's `float(x)` on a dynamically-typed value: numbers coerce to
themselves, strings are parsed, `None` raises `TypeError` (here `none`). -/
def pyFloat : PyVal → Option ℚ
  | PyVal.none => Option.none
  | PyVal.num q => some q
  | PyVal.str s => pyFloatOfString s

/-- `s.split("/")`: split a character list at every `'/'`; the empty
list yields `[[]]`, matching `"".split("/") == [""]`. -/
def splitOnSlash : List Char → List (List Char)
  | [] => [[]]
  | c :: rest =>
      match splitOnSlash rest with
      | [] => if c = '/' then [[], []] else [[c]]
      | h :: t => if c = '/' then [] :: h :: t else (c :: h) :: t

/-- The threshold cascade of `calculate_bp_score` once both parts have
parsed (source lines 68–80). -/
def bp_classify (systolic diastolic : ℚ) : Int × Bool :=
  if systolic ≥ 140 ∨ diastolic ≥ 90 then (4, true)
  else if systolic ≥ 130 ∨ diastolic ≥ 80 then (3, true)
  else if 120 ≤ systolic ∧ systolic ≤ 129 ∧ diastolic < 80 then (2, true)
  else if systolic < 120 ∧ diastolic < 80 then (1, true)
  else (0, true)

/-- `calculate_bp_score(blood_pressure)`: falsy or non-string input is
invalid; the string must split on `"/"` into exactly two parts, neither
blank after stripping, both parsing as floats; then classify. -/
def calculate_bp_score (blood_pressure : PyVal) : Int × Bool :=
  match blood_pressure with
  | PyVal.str s =>
      if s = "" then (0, false)
      else
        match splitOnSlash s.data with
        | [p1, p2] =>
            if pyStrip p1 = [] ∨ pyStrip p2 = [] then (0, false)
            else
              match pyFloatChars p1, pyFloatChars p2 with
              | some systolic, some diastolic => bp_classify systolic diastolic
              | _, _ => (0, false)
        | _ => (0, false)
  | _ => (0, false)

/-- `calculate_temp_score(temperature)`: invalid if `float` fails, else
band the temperature. -/
def calculate_temp_score (temperature : PyVal) : Int × Bool :=
  match pyFloat temperature with
  | Option.none => (0, false)
  | some temp =>
      if temp ≤ 99.5 then (0, true)
      else if 99.6 ≤ temp ∧ temp ≤ 100.9 then (1, true)
      else (2, true)

/-- `has_fever(temperature)`: `float(temperature) >= 99.6`, with a
failed coercion caught and turned into `False`. -/
def has_fever (temperature : PyVal) : Bool :=
  match pyFloat temperature with
  | some temp => decide (temp ≥ 99.6)
  | Option.none => false

/-- `calculate_age_score(age)`: invalid if `float` fails, else 2 for
age > 65 and 1 otherwise. -/
def calculate_age_score (age : PyVal) : Int × Bool :=
  match pyFloat age with
  | Option.none => (0, false)
  | some age_val => if age_val > 65 then (2, true) else (1, true)

/-- One patient record as consumed by the script: the four fields read
via `patient.get(...)`, each possibly absent/malformed. -/
structure Patient where
  patient_id : PyVal
  blood_pressure : PyVal
  temperature : PyVal
  age : PyVal
deriving DecidableEq

/-- The three result sets built by `process_patients` (Python `set`s;
the final `list(...)` conversion has unspecified order, so we keep the
sets themselves). -/
structure Assessment where
  high_risk : Finset PyVal
  fever : Finset PyVal
  data_quality : Finset PyVal
deriving DecidableEq

/-- One iteration of the `process_patients` loop body over a single
patient record (source lines 120–142). -/
def process_step (acc : Assessment) (patient : Patient) : Assessment :=
  if pyTruthy patient.patient_id then
    let bp := calculate_bp_score patient.blood_pressure
    let tp := calculate_temp_score patient.temperature
    let ag := calculate_age_score patient.age
    let dq := if bp.2 = false ∨ tp.2 = false ∨ ag.2 = false then
        insert patient.patient_id acc.data_quality
      else acc.data_quality
    let fv := if has_fever patient.temperature then
        insert patient.patient_id acc.fever
      else acc.fever
    let hr := if bp.1 + tp.1 + ag.1 ≥ 4 then
        insert patient.patient_id acc.high_risk
      else acc.high_risk
    ⟨hr, fv, dq⟩
  else acc

/-- `process_patients(patients)`: fold the loop body over the record
list starting from three empty sets. -/
def process_patients (patients : List Patient) : Assessment :=
  patients.foldl process_step ⟨∅, ∅, ∅⟩

/-- One page of the listing endpoint's response: the `data` array and
the `pagination.hasNext` flag. -/
structure Page where
  data : List Patient
  hasNext : Bool

/-- The body of `fetch_all_patients` (source lines 22–48).  The HTTP
layer is abstracted as `server page limit ↦ response`; `fuel` bounds
the `while True` loop; `log` records every `(page, limit)` request
issued.  Returns `none` if the fuel runs out before the server reports
`hasNext = false`. -/
def fetch_loop (server : Nat → Nat → Page) :
    Nat → Nat → List Patient → List (Nat × Nat) →
    Option (List Patient × List (Nat × Nat))
  | 0, _, _, _ => Option.none
  | fuel + 1, page, acc, log =>
      let payload := server page 20
      let acc2 := acc ++ payload.data
      let log2 := log ++ [(page, 20)]
      if payload.hasNext then fetch_loop server fuel (page + 1) acc2 log2
      else some (acc2, log2)

/-- `fetch_all_patients()`: start at page 1 with empty accumulators. -/
def fetch_all_patients (server : Nat → Nat → Page) (fuel : Nat) :
    Option (List Patient × List (Nat × Nat)) :=
  fetch_loop server fuel 1 [] []

/-! ## Helper lemmas -/

lemma splitOnSlash_ne_nil (cs : List Char) : splitOnSlash cs ≠ [] := by
  cases cs with
  | nil => simp [splitOnSlash]
  | cons c rest =>
      unfold splitOnSlash
      cases splitOnSlash rest <;> dsimp only <;> split <;> simp

lemma string_of_split_two {s : String} {p1 p2 : List Char}
    (h : splitOnSlash s.data = [p1, p2]) : s ≠ "" := by
  intro hs
  subst hs
  simp [splitOnSlash, String.data] at h

/-- Once the input has passed all the validity checks of
`calculate_bp_score`, the result is the threshold cascade applied to
the two parsed numbers. -/
lemma calculate_bp_score_parsed (s : String) (p1 p2 : List Char) (S D : ℚ)
    (hsplit : splitOnSlash s.data = [p1, p2])
    (h1 : pyStrip p1 ≠ []) (h2 : pyStrip p2 ≠ [])
    (hS : pyFloatChars p1 = some S) (hD : pyFloatChars p2 = some D) :
    calculate_bp_score (PyVal.str s) = bp_classify S D := by
  unfold calculate_bp_score
  dsimp only
  rw [if_neg (string_of_split_two hsplit), hsplit]
  dsimp only
  rw [if_neg (not_or.mpr ⟨h1, h2⟩), hS, hD]

lemma bp_classify_crisis (S D : ℚ) (h : S ≥ 140 ∨ D ≥ 90) :
    bp_classify S D = (4, true) := by
  unfold bp_classify
  rw [if_pos h]

lemma bp_classify_stage1 (S D : ℚ) (hn : ¬(S ≥ 140 ∨ D ≥ 90)) (h : S ≥ 130 ∨ D ≥ 80) :
    bp_classify S D = (3, true) := by
  unfold bp_classify
  rw [if_neg hn, if_pos h]

lemma bp_classify_elevated (S D : ℚ) (h : 120 ≤ S ∧ S ≤ 129 ∧ D < 80) :
    bp_classify S D = (2, true) := by
  obtain ⟨ha, hb, hc⟩ := h
  unfold bp_classify
  rw [if_neg (not_or.mpr ⟨not_le.mpr (by linarith), not_le.mpr (by linarith)⟩),
    if_neg (not_or.mpr ⟨not_le.mpr (by linarith), not_le.mpr (by linarith)⟩),
    if_pos ⟨ha, hb, hc⟩]

lemma bp_classify_normal (S D : ℚ) (h : S < 120 ∧ D < 80) :
    bp_classify S D = (1, true) := by
  obtain ⟨ha, hb⟩ := h
  unfold bp_classify
  rw [if_neg (not_or.mpr ⟨not_le.mpr (by linarith), not_le.mpr (by linarith)⟩),
    if_neg (not_or.mpr ⟨not_le.mpr (by linarith), not_le.mpr (by linarith)⟩),
    if_neg (by rintro ⟨h120, -, -⟩; linarith),
    if_pos ⟨ha, hb⟩]

/-! ## Blood-pressure claims -/

/-- C2: for every blood-pressure string that passes parsing into
numbers `S` and `D`, the scorer applies the ordered first-match
thresholds: `S ≥ 140 ∨ D ≥ 90 → (4, true)` regardless of the other
value; else `S ≥ 130 ∨ D ≥ 80 → (3, true)`; `120 ≤ S ≤ 129 ∧ D < 80 →
(2, true)`; `S < 120 ∧ D < 80 → (1, true)`. -/
theorem bp_thresholds_first_match (s : String) (p1 p2 : List Char) (S D : ℚ)
    (hsplit : splitOnSlash s.data = [p1, p2])
    (h1 : pyStrip p1 ≠ []) (h2 : pyStrip p2 ≠ [])
    (hS : pyFloatChars p1 = some S) (hD : pyFloatChars p2 = some D) :
    (S ≥ 140 ∨ D ≥ 90 → calculate_bp_score (PyVal.str s) = (4, true)) ∧
    (¬(S ≥ 140 ∨ D ≥ 90) → S ≥ 130 ∨ D ≥ 80 →
      calculate_bp_score (PyVal.str s) = (3, true)) ∧
    (120 ≤ S ∧ S ≤ 129 ∧ D < 80 → calculate_bp_score (PyVal.str s) = (2, true)) ∧
    (S < 120 ∧ D < 80 → calculate_bp_score (PyVal.str s) = (1, true)) := by
  rw [calculate_bp_score_parsed s p1 p2 S D hsplit h1 h2 hS hD]
  exact ⟨bp_classify_crisis S D, bp_classify_stage1 S D,
    bp_classify_elevated S D, bp_classify_normal S D⟩

theorem bp_thresholds_first_match_witness :
    calculate_bp_score (PyVal.str "145/70") = (4, true) :=
  (bp_thresholds_first_match "145/70" ['1', '4', '5'] ['7', '0'] 145 70
    (by decide) (by decide) (by decide) (by decide) (by decide)).1
    (Or.inl (by norm_num))

/-- C1 (counterexample): the claim says a parseable reading with
`S < 120` and `80 ≤ D < 90` falls through to `(0, valid)`; but on
`"110/85"` (S = 110, D = 85) the code's second branch
(`diastolic >= 80`) fires and returns `(3, true)`. -/
theorem bp_fallthrough_claim_false :
    calculate_bp_score (PyVal.str "110/85") = (3, true) ∧
    calculate_bp_score (PyVal.str "110/85") ≠ (0, true) := by
  constructor <;> decide

/-- C1 (amended): for every blood-pressure input that passes parsing
with `S < 120` and `80 ≤ D < 90`, the scorer returns score 3 with
valid = true — the `S ≥ 130 OR D ≥ 80` branch catches `D ≥ 80`, so the
score-0 fallthrough is not reached for these inputs. -/
theorem bp_low_systolic_high_diastolic_scores_three
    (s : String) (p1 p2 : List Char) (S D : ℚ)
    (hsplit : splitOnSlash s.data = [p1, p2])
    (h1 : pyStrip p1 ≠ []) (h2 : pyStrip p2 ≠ [])
    (hS : pyFloatChars p1 = some S) (hD : pyFloatChars p2 = some D)
    (hlow : S < 120) (hd1 : 80 ≤ D) (hd2 : D < 90) :
    calculate_bp_score (PyVal.str s) = (3, true) := by
  rw [calculate_bp_score_parsed s p1 p2 S D hsplit h1 h2 hS hD]
  exact bp_classify_stage1 S D
    (not_or.mpr ⟨not_le.mpr (by linarith), not_le.mpr (by linarith)⟩) (Or.inr hd1)

theorem bp_low_systolic_high_diastolic_scores_three_witness :
    calculate_bp_score (PyVal.str "115/85") = (3, true) :=
  bp_low_systolic_high_diastolic_scores_three "115/85" ['1', '1', '5'] ['8', '5'] 115 85
    (by decide) (by decide) (by decide) (by decide) (by decide)
    (by norm_num) (by norm_num) (by norm_num)

/-- C7: every blood-pressure input that is missing, not a string, does
not split into exactly two `"/"`-delimited parts, has a blank part
after trimming, or has a part that fails numeric parsing yields
`(0, false)`; in particular `""`, `None`, `"120"`, `"abc/80"`, `"/80"`
and `"120/"` all do. -/
theorem bp_invalid_inputs :
    calculate_bp_score PyVal.none = (0, false) ∧
    (∀ q : ℚ, calculate_bp_score (PyVal.num q) = (0, false)) ∧
    (∀ s : String, (splitOnSlash s.data).length ≠ 2 →
      calculate_bp_score (PyVal.str s) = (0, false)) ∧
    (∀ (s : String) (p1 p2 : List Char), splitOnSlash s.data = [p1, p2] →
      pyStrip p1 = [] ∨ pyStrip p2 = [] →
      calculate_bp_score (PyVal.str s) = (0, false)) ∧
    (∀ (s : String) (p1 p2 : List Char), splitOnSlash s.data = [p1, p2] →
      pyFloatChars p1 = Option.none ∨ pyFloatChars p2 = Option.none →
      calculate_bp_score (PyVal.str s) = (0, false)) ∧
    calculate_bp_score (PyVal.str "") = (0, false) ∧
    calculate_bp_score (PyVal.str "120") = (0, false) ∧
    calculate_bp_score (PyVal.str "abc/80") = (0, false) ∧
    calculate_bp_score (PyVal.str "/80") = (0, false) ∧
    calculate_bp_score (PyVal.str "120/") = (0, false) := by
  refine ⟨rfl, fun q => rfl, fun s hlen => ?_, fun s p1 p2 hsplit hblank => ?_,
    fun s p1 p2 hsplit hparse => ?_, by decide, by decide, by decide, by decide, by decide⟩
  · unfold calculate_bp_score
    dsimp only
    by_cases hs : s = ""
    · rw [if_pos hs]
    · rw [if_neg hs]
      rcases hsp : splitOnSlash s.data with - | ⟨a, - | ⟨b, - | ⟨c, rest⟩⟩⟩ <;>
        first
          | rfl
          | (exfalso; rw [hsp] at hlen; simp at hlen)
  · unfold calculate_bp_score
    dsimp only
    rw [if_neg (string_of_split_two hsplit), hsplit]
    dsimp only
    rw [if_pos hblank]
  · unfold calculate_bp_score
    dsimp only
    rw [if_neg (string_of_split_two hsplit), hsplit]
    dsimp only
    by_cases hblank : pyStrip p1 = [] ∨ pyStrip p2 = []
    · rw [if_pos hblank]
    · rw [if_neg hblank]
      rcases hparse with h | h
      · rw [h]
      · rw [h]
        cases pyFloatChars p1 <;> rfl

theorem bp_invalid_inputs_witness :
    calculate_bp_score (PyVal.str "a/b/c") = (0, false) :=
  bp_invalid_inputs.2.2.1 "a/b/c" (by decide)

/-! ## Temperature and age claims -/

/-- C4: a temperature that cannot be coerced to a number scores
`(0, false)`; otherwise `≤ 99.5` scores `(0, true)`, values between
99.6 and 100.9 inclusive score `(1, true)`, and `≥ 101.0` scores
`(2, true)`. -/
theorem temp_score_bands (t : PyVal) :
    (pyFloat t = Option.none → calculate_temp_score t = (0, false)) ∧
    ∀ q : ℚ, pyFloat t = some q →
      (q ≤ 99.5 → calculate_temp_score t = (0, true)) ∧
      (99.6 ≤ q ∧ q ≤ 100.9 → calculate_temp_score t = (1, true)) ∧
      (101 ≤ q → calculate_temp_score t = (2, true)) := by
  constructor
  · intro h
    unfold calculate_temp_score
    rw [h]
  · intro q hq
    unfold calculate_temp_score
    rw [hq]
    dsimp only
    refine ⟨fun h => by rw [if_pos h], fun h => ?_, fun h => ?_⟩
    · rw [if_neg (not_le.mpr (by linarith [h.1])), if_pos h]
    · rw [if_neg (not_le.mpr (by linarith)),
        if_neg (by rintro ⟨-, hc⟩; linarith)]

theorem temp_score_bands_witness :
    calculate_temp_score (PyVal.num 99.5) = (0, true) ∧
    calculate_temp_score (PyVal.num 99.6) = (1, true) ∧
    calculate_temp_score (PyVal.num 101) = (2, true) ∧
    calculate_temp_score PyVal.none = (0, false) :=
  ⟨((temp_score_bands (PyVal.num 99.5)).2 99.5 rfl).1 (by norm_num),
   ((temp_score_bands (PyVal.num 99.6)).2 99.6 rfl).2.1 (by norm_num),
   ((temp_score_bands (PyVal.num 101)).2 101 rfl).2.2 (by norm_num),
   (temp_score_bands PyVal.none).1 rfl⟩

/-- C5: the fever predicate is true exactly when the value coerces to
a number `≥ 99.6`; a failed coercion gives `false`, not an error. -/
theorem fever_iff_coerced_high (t : PyVal) :
    (has_fever t = true ↔ ∃ q : ℚ, pyFloat t = some q ∧ 99.6 ≤ q) ∧
    (pyFloat t = Option.none → has_fever t = false) := by
  unfold has_fever
  cases h : pyFloat t with
  | none => simp
  | some q =>
      simp only [decide_eq_true_eq, Option.some.injEq, reduceCtorEq, false_implies,
        and_true]
      constructor
      · intro hq
        exact ⟨q, rfl, hq⟩
      · rintro ⟨q', rfl, hq'⟩
        exact hq'

theorem fever_iff_coerced_high_witness :
    has_fever (PyVal.num 102) = true ∧ has_fever PyVal.none = false :=
  ⟨(fever_iff_coerced_high (PyVal.num 102)).1.mpr ⟨102, rfl, by norm_num⟩,
   (fever_iff_coerced_high PyVal.none).2 rfl⟩

/-- C9: an age that cannot be coerced to a number scores `(0, false)`;
otherwise ages `> 65` score `(2, true)` and all other ages — including
`≤ 65`, zero and negative values — score `(1, true)`. -/
theorem age_score_bands (a : PyVal) :
    (pyFloat a = Option.none → calculate_age_score a = (0, false)) ∧
    ∀ q : ℚ, pyFloat a = some q →
      (65 < q → calculate_age_score a = (2, true)) ∧
      (q ≤ 65 → calculate_age_score a = (1, true)) := by
  constructor
  · intro h
    unfold calculate_age_score
    rw [h]
  · intro q hq
    unfold calculate_age_score
    rw [hq]
    dsimp only
    exact ⟨fun h => by rw [if_pos h], fun h => by rw [if_neg (not_lt.mpr h)]⟩

theorem age_score_bands_witness :
    calculate_age_score (PyVal.num 66) = (2, true) ∧
    calculate_age_score (PyVal.num 65) = (1, true) ∧
    calculate_age_score (PyVal.str "N/A") = (0, false) :=
  ⟨((age_score_bands (PyVal.num 66)).2 66 rfl).1 (by norm_num),
   ((age_score_bands (PyVal.num 65)).2 65 rfl).2 (by norm_num),
   (age_score_bands (PyVal.str "N/A")).1 (by decide)⟩

/-- C10: a temperature strictly between 99.5 and 99.6 falls through
both bands of the scorer and gets `(2, true)` while the fever predicate
is false — it is neither a fever nor a data-quality issue. -/
theorem temp_gap_scores_two_no_fever (t : PyVal) (q : ℚ)
    (hq : pyFloat t = some q) (h1 : 99.5 < q) (h2 : q < 99.6) :
    calculate_temp_score t = (2, true) ∧ has_fever t = false := by
  constructor
  · unfold calculate_temp_score
    rw [hq]
    dsimp only
    rw [if_neg (not_le.mpr h1), if_neg (by rintro ⟨hc, -⟩; linarith)]
  · unfold has_fever
    rw [hq]
    simp only [decide_eq_false_iff_not, not_le]
    exact h2

theorem temp_gap_scores_two_no_fever_witness :
    calculate_temp_score (PyVal.num 99.55) = (2, true) ∧
    has_fever (PyVal.num 99.55) = false :=
  temp_gap_scores_two_no_fever (PyVal.num 99.55) 99.55 rfl (by norm_num) (by norm_num)

/-! ## Aggregator claims -/

/-- All three validity flags of one record (BP, temperature, age). -/
def record_flags_ok (p : Patient) : Bool :=
  (calculate_bp_score p.blood_pressure).2 && (calculate_temp_score p.temperature).2 &&
    (calculate_age_score p.age).2

/-- The total risk contribution of one record. -/
def record_total_risk (p : Patient) : Int :=
  (calculate_bp_score p.blood_pressure).1 + (calculate_temp_score p.temperature).1 +
    (calculate_age_score p.age).1

lemma record_flags_ok_false_iff (p : Patient) :
    record_flags_ok p = false ↔
      (calculate_bp_score p.blood_pressure).2 = false ∨
        (calculate_temp_score p.temperature).2 = false ∨
        (calculate_age_score p.age).2 = false := by
  unfold record_flags_ok
  cases (calculate_bp_score p.blood_pressure).2 <;>
    cases (calculate_temp_score p.temperature).2 <;>
    cases (calculate_age_score p.age).2 <;> simp

lemma mem_process_step_data_quality (acc : Assessment) (p : Patient) (v : PyVal) :
    v ∈ (process_step acc p).data_quality ↔
      v ∈ acc.data_quality ∨
        (pyTruthy p.patient_id = true ∧ p.patient_id = v ∧ record_flags_ok p = false) := by
  unfold process_step
  by_cases ht : pyTruthy p.patient_id
  · rw [if_pos ht]
    dsimp only
    by_cases hf : record_flags_ok p = false
    · rw [if_pos ((record_flags_ok_false_iff p).mp hf), Finset.mem_insert]
      constructor
      · rintro (h | h)
        · exact Or.inr ⟨ht, h.symm, hf⟩
        · exact Or.inl h
      · rintro (h | ⟨-, h, -⟩)
        · exact Or.inr h
        · exact Or.inl h.symm
    · rw [if_neg (fun hc => hf ((record_flags_ok_false_iff p).mpr hc))]
      simp [hf]
  · rw [if_neg ht]
    simp [ht]

lemma mem_process_step_fever (acc : Assessment) (p : Patient) (v : PyVal) :
    v ∈ (process_step acc p).fever ↔
      v ∈ acc.fever ∨
        (pyTruthy p.patient_id = true ∧ p.patient_id = v ∧
          has_fever p.temperature = true) := by
  unfold process_step
  by_cases ht : pyTruthy p.patient_id
  · rw [if_pos ht]
    dsimp only
    by_cases hf : has_fever p.temperature
    · rw [if_pos hf, Finset.mem_insert]
      constructor
      · rintro (h | h)
        · exact Or.inr ⟨ht, h.symm, hf⟩
        · exact Or.inl h
      · rintro (h | ⟨-, h, -⟩)
        · exact Or.inr h
        · exact Or.inl h.symm
    · rw [if_neg hf]
      simp only [Bool.not_eq_true] at hf
      simp only [hf, reduceCtorEq, and_false, or_false]
  · rw [if_neg ht]
    simp [ht]

lemma mem_process_step_high_risk (acc : Assessment) (p : Patient) (v : PyVal) :
    v ∈ (process_step acc p).high_risk ↔
      v ∈ acc.high_risk ∨
        (pyTruthy p.patient_id = true ∧ p.patient_id = v ∧ 4 ≤ record_total_risk p) := by
  unfold process_step
  by_cases ht : pyTruthy p.patient_id
  · rw [if_pos ht]
    dsimp only
    by_cases hf : 4 ≤ record_total_risk p
    · rw [if_pos ?_, Finset.mem_insert]
      · constructor
        · rintro (h | h)
          · exact Or.inr ⟨ht, h.symm, hf⟩
          · exact Or.inl h
        · rintro (h | ⟨-, h, -⟩)
          · exact Or.inr h
          · exact Or.inl h.symm
      · unfold record_total_risk at hf
        linarith
    · rw [if_neg ?_]
      · simp only [hf, and_false, or_false]
      · unfold record_total_risk at hf
        intro hc
        exact hf (by linarith)
  · rw [if_neg ht]
    simp [ht]

/-- Folding the loop body over a list: membership in a projected set is
membership in the accumulator or a qualifying record in the list. -/
lemma mem_foldl_process (f : Assessment → Finset PyVal) (Q : Patient → Prop)
    (hf : ∀ acc p v, v ∈ f (process_step acc p) ↔
      v ∈ f acc ∨ (pyTruthy p.patient_id = true ∧ p.patient_id = v ∧ Q p)) :
    ∀ (l : List Patient) (acc : Assessment) (v : PyVal),
      v ∈ f (l.foldl process_step acc) ↔
        v ∈ f acc ∨ ∃ p ∈ l, pyTruthy p.patient_id = true ∧ p.patient_id = v ∧ Q p := by
  intro l
  induction l with
  | nil => simp
  | cons p l ih =>
      intro acc v
      rw [List.foldl_cons, ih, hf]
      simp only [List.mem_cons]
      constructor
      · rintro ((h | h) | ⟨r, hr, h⟩)
        · exact Or.inl h
        · exact Or.inr ⟨p, Or.inl rfl, h⟩
        · exact Or.inr ⟨r, Or.inr hr, h⟩
      · rintro (h | ⟨r, hr | hr, h⟩)
        · exact Or.inl (Or.inl h)
        · exact Or.inl (Or.inr (hr ▸ h))
        · exact Or.inr ⟨r, hr, h⟩

/-- C3 (amended): for every input list and every value `v`, `v` is in
`data_quality_issues` iff some record in the list with truthy
`patient_id = v` has a validity flag false; in `high_risk` iff some
such record's contributions sum to at least 4; in the fever set iff
some such record satisfies the fever predicate.  The three memberships
are computed independently, but over *all* records sharing the id, not
record by record. -/
theorem process_patients_membership (patients : List Patient) (v : PyVal) :
    (v ∈ (process_patients patients).data_quality ↔
      ∃ p ∈ patients, pyTruthy p.patient_id = true ∧ p.patient_id = v ∧
        record_flags_ok p = false) ∧
    (v ∈ (process_patients patients).high_risk ↔
      ∃ p ∈ patients, pyTruthy p.patient_id = true ∧ p.patient_id = v ∧
        4 ≤ record_total_risk p) ∧
    (v ∈ (process_patients patients).fever ↔
      ∃ p ∈ patients, pyTruthy p.patient_id = true ∧ p.patient_id = v ∧
        has_fever p.temperature = true) := by
  unfold process_patients
  refine ⟨?_, ?_, ?_⟩
  · rw [mem_foldl_process (fun a => a.data_quality) (fun p => record_flags_ok p = false)
      mem_process_step_data_quality patients ⟨∅, ∅, ∅⟩ v]
    simp
  · rw [mem_foldl_process (fun a => a.high_risk) (fun p => 4 ≤ record_total_risk p)
      mem_process_step_high_risk patients ⟨∅, ∅, ∅⟩ v]
    simp
  · rw [mem_foldl_process (fun a => a.fever) (fun p => has_fever p.temperature = true)
      mem_process_step_fever patients ⟨∅, ∅, ∅⟩ v]
    simp

/-- C3 (counterexample): the record-by-record "if and only if" fails
when two records share a `patient_id`.  Here the first record (all
fields unparseable) puts `"A"` into `data_quality_issues`, yet the
second record also has `patient_id = "A"` with all three validity
flags true — so for that record the claimed equivalence "`patient_id ∈
data_quality_issues` iff one of its flags is false" is violated. -/
theorem process_patients_per_record_iff_false :
    PyVal.str "A" ∈
      (process_patients
        [⟨PyVal.str "A", PyVal.none, PyVal.none, PyVal.none⟩,
         ⟨PyVal.str "A", PyVal.str "110/70", PyVal.num 98, PyVal.num 30⟩]).data_quality ∧
    (calculate_bp_score (PyVal.str "110/70")).2 = true ∧
    (calculate_temp_score (PyVal.num 98)).2 = true ∧
    (calculate_age_score (PyVal.num 30)).2 = true := by
  refine ⟨?_, by decide, ?_, ?_⟩
  · simp +decide [process_patients, process_step, calculate_bp_score, calculate_temp_score,
      calculate_age_score, has_fever, pyFloat, pyTruthy]
  · norm_num [calculate_temp_score, pyFloat]
  · norm_num [calculate_age_score, pyFloat]

/-- C8: a record whose `patient_id` is missing or empty (falsy)
contributes to none of the three output sets — removing it from the
input list leaves the result unchanged, whatever its vitals are. -/
theorem missing_id_contributes_nothing (l1 l2 : List Patient) (p : Patient)
    (h : pyTruthy p.patient_id = false) :
    process_patients (l1 ++ p :: l2) = process_patients (l1 ++ l2) := by
  unfold process_patients
  rw [List.foldl_append, List.foldl_append, List.foldl_cons]
  have hstep : ∀ acc : Assessment, process_step acc p = acc := by
    intro acc
    unfold process_step
    rw [if_neg (by simp [h])]
  rw [hstep]

theorem missing_id_contributes_nothing_witness :
    process_patients [⟨PyVal.none, PyVal.str "180/120", PyVal.num 103, PyVal.num 80⟩] =
      process_patients [] :=
  missing_id_contributes_nothing [] []
    ⟨PyVal.none, PyVal.str "180/120", PyVal.num 103, PyVal.num 80⟩ (by decide)

/-! ## Retrieval claim -/

/-- Unrolling the retrieval loop: if the server reports another page
for the first `n` pages from `start` and no next page at `start + n`,
the loop visits exactly pages `start, …, start + n`, concatenating
their data and logging one `(page, 20)` request per page. -/
lemma fetch_loop_spec (server : Nat → Nat → Page) :
    ∀ (n fuel start : Nat) (acc : List Patient) (log : List (Nat × Nat)),
      n + 1 ≤ fuel →
      (∀ k, k < n → (server (start + k) 20).hasNext = true) →
      (server (start + n) 20).hasNext = false →
      fetch_loop server fuel start acc log =
        some (acc ++ (List.range' start (n + 1)).flatMap (fun k => (server k 20).data),
              log ++ (List.range' start (n + 1)).map (fun k => (k, 20))) := by
  intro n
  induction n with
  | zero =>
      intro fuel start acc log hfuel hprev hlast
      obtain ⟨f, rfl⟩ : ∃ f, fuel = f + 1 := ⟨fuel - 1, by omega⟩
      unfold fetch_loop
      dsimp only
      rw [if_neg (by rw [Nat.add_zero] at hlast; simp [hlast])]
      simp [List.range']
  | succ n ih =>
      intro fuel start acc log hfuel hprev hlast
      obtain ⟨f, rfl⟩ : ∃ f, fuel = f + 1 := ⟨fuel - 1, by omega⟩
      unfold fetch_loop
      dsimp only
      rw [if_pos (by simpa using hprev 0 (Nat.succ_pos n))]
      rw [ih f (start + 1) (acc ++ (server start 20).data) (log ++ [(start, 20)])
        (by omega)
        (fun k hk => by
          have := hprev (k + 1) (by omega)
          rwa [show start + (k + 1) = start + 1 + k by omega] at this)
        (by rwa [show start + 1 + n = start + (n + 1) by omega])]
      simp [List.range'_succ, List.flatMap_cons, List.append_assoc]

/-- C6: if page `N` (1-based) is the first page whose `hasNext`
indicator is false, `fetch_all_patients` issues exactly the `N`
requests `(1, 20), …, (N, 20)` and returns the concatenation of the
`N` pages' data arrays in page order. -/
theorem fetch_all_patients_paginates (server : Nat → Nat → Page) (N : Nat)
    (hN : 1 ≤ N)
    (hprev : ∀ k, k < N → 1 ≤ k → (server k 20).hasNext = true)
    (hlast : (server N 20).hasNext = false)
    (fuel : Nat) (hfuel : N ≤ fuel) :
    fetch_all_patients server fuel =
      some ((List.range' 1 N).flatMap (fun k => (server k 20).data),
            (List.range' 1 N).map (fun k => (k, 20))) := by
  obtain ⟨n, rfl⟩ : ∃ n, N = n + 1 := ⟨N - 1, by omega⟩
  unfold fetch_all_patients
  rw [fetch_loop_spec server n fuel 1 [] [] (by omega)
    (fun k hk => by
      have := hprev (1 + k) (by omega) (by omega)
      rwa [] at this)
    (by rwa [show 1 + n = n + 1 by omega])]
  simp

/-- A three-page demonstration server: pages 1 and 2 report another
page, page 3 does not. -/
def demoServer (page : Nat) (limit : Nat) : Page :=
  { data := [⟨PyVal.num page, PyVal.none, PyVal.none, PyVal.num limit⟩],
    hasNext := decide (page < 3) }

theorem fetch_all_patients_paginates_witness :
    fetch_all_patients demoServer 3 =
      some ((List.range' 1 3).flatMap (fun k => (demoServer k 20).data),
            (List.range' 1 3).map (fun k => (k, 20))) :=
  fetch_all_patients_paginates demoServer 3 (by norm_num)
    (fun k hk h1 => by
      interval_cases k <;> rfl)
    (by rfl) 3 (le_refl 3)
